import Mathlib

/-!
Verification of the Phantom Banking wallet ledger.

The model below is a shallow embedding of the ledger-relevant behaviour of
`api_server.py` (the deployed Flask server backed by `database.py`) and, where
the claims reference it, of the "enterprise" variant in
`fnb-phantom-banking/comprehensive_phantom_banking.py`.

Modelling conventions:
* Python floats holding BWP amounts are modelled as rationals (`ℚ`); the
  claims under scrutiny concern comparison and bookkeeping logic, not binary
  rounding.
* SQLite tables are lists of records; `SELECT ... fetchone()` is `List.find?`
  (first matching row), `UPDATE ... WHERE` is a `List.map` that rewrites the
  matching rows, `INSERT` prepends to the transaction log (the log is
  append-only, order is immaterial to the claims).
* HTTP-level error responses are collected in one `ApiError` vocabulary;
  returning `.error` models the handler returning before any SQL mutation is
  executed (in every handler embedded here, all error returns happen before
  the first `UPDATE`/`INSERT` on the path, except where noted in a claim).
* Fields the claims never mention (timestamps, PINs, emails, metadata,
  notification rows) are dropped from the record types.
-/

/-- A row of the `wallets` table (`database.py`, ledger-relevant columns). -/
structure Wallet where
  wallet_id : String
  business_id : String
  customer_phone : String
  balance : ℚ
  daily_limit : ℚ
  status : String
deriving Repr, DecidableEq

/-- A row of the `merchants` table (ledger-relevant columns). -/
structure Merchant where
  id : String
  balance : ℚ
  status : String
deriving Repr, DecidableEq

/-- A row of the `transactions` table (ledger-relevant columns). -/
structure Txn where
  transaction_id : String
  wallet_id : String
  from_wallet : Option String
  to_wallet : Option String
  amount : ℚ
  fee : ℚ
  channel : String
  status : String
  external_reference : Option String
deriving Repr, DecidableEq

/-- The mutable database state seen by the API handlers. -/
structure DBState where
  wallets : List Wallet
  merchants : List Merchant
  transactions : List Txn
deriving Repr, DecidableEq

/-- The error vocabulary of the API handlers (HTTP error responses). -/
inductive ApiError where
  | authRequired : ApiError
  | phoneRequired : ApiError
  | notFound : ApiError
  | unauthorized : ApiError
  | invalidAmount : ApiError
  | insufficientBalance (available required : ℚ) : ApiError
  | duplicateWallet : ApiError
deriving Repr, DecidableEq

/-- `SELECT ... FROM wallets WHERE wallet_id = ? AND status = 'active'`. -/
def findActiveWallet (ws : List Wallet) (wid : String) : Option Wallet :=
  ws.find? (fun w => w.wallet_id == wid && w.status == "active")

/-- `SELECT ... FROM wallets WHERE customer_phone = ? AND status = 'active'`. -/
def findActiveWalletByPhone (ws : List Wallet) (phone : String) : Option Wallet :=
  ws.find? (fun w => w.customer_phone == phone && w.status == "active")

/-- `SELECT ... FROM wallets WHERE wallet_id = ?` (no status filter). -/
def findWalletById (ws : List Wallet) (wid : String) : Option Wallet :=
  ws.find? (fun w => w.wallet_id == wid)

/-- `SELECT ... FROM wallets WHERE customer_phone = ?` (no status filter). -/
def findWalletByPhone (ws : List Wallet) (phone : String) : Option Wallet :=
  ws.find? (fun w => w.customer_phone == phone)

/-- `SELECT ... FROM merchants WHERE id = ? AND status = 'active'`. -/
def findActiveMerchant (ms : List Merchant) (mid : String) : Option Merchant :=
  ms.find? (fun m => m.id == mid && m.status == "active")

/-- The row rewrite performed by `UPDATE wallets SET balance = f(balance) WHERE wallet_id = ?`. -/
def adjRow (tid : String) (f : ℚ → ℚ) (w : Wallet) : Wallet :=
  if w.wallet_id == tid then { w with balance := f w.balance } else w

/-- `UPDATE wallets SET balance = f(balance) WHERE wallet_id = ?`. -/
def adjustBalance (ws : List Wallet) (tid : String) (f : ℚ → ℚ) : List Wallet :=
  ws.map (adjRow tid f)

/-- `UPDATE wallets SET balance = balance + ? WHERE wallet_id = ?`. -/
def creditWallet (ws : List Wallet) (tid : String) (amt : ℚ) : List Wallet :=
  adjustBalance ws tid (· + amt)

/-- `UPDATE wallets SET balance = balance - ? WHERE wallet_id = ?`. -/
def debitWallet (ws : List Wallet) (tid : String) (amt : ℚ) : List Wallet :=
  adjustBalance ws tid (· - amt)

/-- `UPDATE merchants SET balance = balance + ? WHERE id = ?`. -/
def creditMerchant (ms : List Merchant) (mid : String) (amt : ℚ) : List Merchant :=
  ms.map (fun m => if m.id == mid then { m with balance := m.balance + amt } else m)

/-- Balance of a wallet as read back from the store (`None` if the row is missing). -/
def balanceOf (st : DBState) (wid : String) : Option ℚ :=
  (findWalletById st.wallets wid).map (·.balance)

/-- Balance of a merchant as read back from the store. -/
def merchantBalanceOf (st : DBState) (mid : String) : Option ℚ :=
  ((st.merchants.find? (fun m => m.id == mid)).map (·.balance))

/-- The `fee_structure` dict hard-coded in `customer_send_payment`
(`api_server.py` lines 750-756). Note: no `bank_transfer`/`eft` entries. -/
def fee_structure : List (String × ℚ) :=
  [("phantom_wallet", 0), ("orange_money", 5/2), ("myzaka", 3), ("ussd", 3/2), ("qr_code", 0)]

/-- `fee_structure.get(channel, 2.50)` (`api_server.py` line 758). -/
def feeFor (channel : String) : ℚ :=
  (fee_structure.lookup channel).getD (5/2)

/-- `Config.FEE_STRUCTURE` from `config.py` (lines 31-39). This table does
contain `bank_transfer`/`eft` at 5.00, but `customer_send_payment` never
consults it. -/
def config_FEE_STRUCTURE : List (String × ℚ) :=
  [("phantom_wallet", 0), ("orange_money", 5/2), ("myzaka", 3), ("ussd", 3/2),
   ("qr_code", 0), ("bank_transfer", 5), ("eft", 5)]

/-- `config.get_fee(channel)` from `config.py` (default 0.00). -/
def config_get_fee (channel : String) : ℚ :=
  (config_FEE_STRUCTURE.lookup channel).getD 0

/-- The `traditional_fees` dict in `customer_send_payment` (line 846). -/
def traditional_fees : List (String × ℚ) :=
  [("orange_money", 92), ("myzaka", 99)]

/-- Python's `str.startswith`, on the character lists of the strings (the
built-in `String.startsWith` is observationally the same but does not reduce
inside the kernel). -/
def strStartsWith (s p : String) : Bool :=
  List.isPrefixOf p.data s.data

/-- Request body plus authentication context of `POST /api/v1/customer/send-payment`. -/
structure SendRequest where
  user_type : String
  customer_phone : Option String
  wallet_id : Option String
  amount : ℚ
  channel : String
  recipient : String
deriving Repr, DecidableEq

/-- The success payload of `customer_send_payment`. -/
structure SendResult where
  transaction_id : String
  amount : ℚ
  fee : ℚ
  fee_saved : Option ℚ
  channel : String
  recipient : String
  recipient_type : String
  new_balance : ℚ
deriving Repr, DecidableEq

/-- Shallow embedding of `customer_send_payment` (`api_server.py` lines
686-904): authentication gate, wallet lookup (by id, else by phone, both
filtered on `status = 'active'`), fee lookup, balance check, sender debit,
phantom-channel recipient resolution (`pw_bw_` wallet / `merchant_` merchant /
silent fall-through to "external"), and the single transaction insert whose
`to_wallet` is the raw recipient string whenever the channel is
`phantom_wallet`. -/
def customer_send_payment (st : DBState) (req : SendRequest) (txid : String) :
    Except ApiError (DBState × SendResult) :=
  if req.user_type ≠ "customer" then .error .authRequired
  else match req.customer_phone with
  | none => .error .phoneRequired
  | some _ =>
    let wopt := match req.wallet_id with
      | some wid => findActiveWallet st.wallets wid
      | none => match req.customer_phone with
        | some ph => findActiveWalletByPhone st.wallets ph
        | none => none
    match wopt with
    | none => .error .notFound
    | some w =>
      let fee := feeFor req.channel
      let total := req.amount + fee
      if w.balance < total then .error (.insufficientBalance w.balance total)
      else
        let ws1 := debitWallet st.wallets w.wallet_id total
        let step :=
          if req.channel == "phantom_wallet" && req.recipient != "" then
            if strStartsWith req.recipient "pw_bw_" then
              match findActiveWallet ws1 req.recipient with
              | some _ => (creditWallet ws1 req.recipient req.amount, st.merchants, "customer_wallet")
              | none => (ws1, st.merchants, "external")
            else if strStartsWith req.recipient "merchant_" then
              match findActiveMerchant st.merchants req.recipient with
              | some _ => (ws1, creditMerchant st.merchants req.recipient req.amount, "merchant")
              | none => (ws1, st.merchants, "external")
            else (ws1, st.merchants, "external")
          else (ws1, st.merchants, "external")
        let txn : Txn :=
          { transaction_id := txid
            wallet_id := w.wallet_id
            from_wallet := some w.wallet_id
            to_wallet := if req.channel == "phantom_wallet" then some req.recipient else none
            amount := req.amount
            fee := fee
            channel := req.channel
            status := "completed"
            external_reference := none }
        let fsaved := (traditional_fees.lookup req.channel).getD 0 - fee
        .ok ({ wallets := step.1, merchants := step.2.1, transactions := txn :: st.transactions },
             { transaction_id := txid
               amount := req.amount
               fee := fee
               fee_saved := if fsaved > 0 then some fsaved else none
               channel := req.channel
               recipient := req.recipient
               recipient_type := step.2.2
               new_balance := w.balance - total })

/-- The success payload of `merchant_topup_wallet`. -/
structure TopupResult where
  transaction_id : String
  wallet_id : String
  amount_added : ℚ
  new_balance : ℚ
  previous_balance : ℚ
deriving Repr, DecidableEq

/-- Shallow embedding of `merchant_topup_wallet` (`api_server.py` lines
457-575): merchant authentication, positivity check on the amount, wallet
lookup by id with **no status filter**, ownership check
(`wallet.business_id == user_id`), credit, and one `merchant_topup`
transaction row with `to_wallet = wallet_id` and fee 0. The new balance is
read back from the store after the update, as the handler does. -/
def merchant_topup_wallet (st : DBState) (user_type user_id wallet_id : String)
    (amount : ℚ) (txid : String) : Except ApiError (DBState × TopupResult) :=
  if user_type ≠ "merchant" then .error .authRequired
  else if amount ≤ 0 then .error .invalidAmount
  else match findWalletById st.wallets wallet_id with
  | none => .error .notFound
  | some w =>
    if w.business_id ≠ user_id then .error .unauthorized
    else
      let ws1 := creditWallet st.wallets wallet_id amount
      let txn : Txn :=
        { transaction_id := txid
          wallet_id := wallet_id
          from_wallet := none
          to_wallet := some wallet_id
          amount := amount
          fee := 0
          channel := "merchant_topup"
          status := "completed"
          external_reference := none }
      let nb := ((findWalletById ws1 wallet_id).map (·.balance)).getD 0
      .ok ({ wallets := ws1, merchants := st.merchants, transactions := txn :: st.transactions },
           { transaction_id := txid
             wallet_id := wallet_id
             amount_added := amount
             new_balance := nb
             previous_balance := w.balance })

/-- The success payload of `customer_topup`. -/
structure CTopupResult where
  transaction_id : String
  amount : ℚ
  old_balance : ℚ
  new_balance : ℚ
deriving Repr, DecidableEq

/-- Shallow embedding of `customer_topup` (`api_server.py` lines 907-1004):
customer authentication, wallet lookup by phone with **no status filter**,
then an unconditional credit of `amount` (the handler performs **no amount
validation**) and one transaction row with `to_wallet = wallet_id`, fee 0,
`channel = source` and the external reference recorded. -/
def customer_topup (st : DBState) (user_type : String) (customer_phone : Option String)
    (amount : ℚ) (source reference : String) (txid : String) :
    Except ApiError (DBState × CTopupResult) :=
  if user_type ≠ "customer" then .error .authRequired
  else
    let wopt := match customer_phone with
      | some ph => findWalletByPhone st.wallets ph
      | none => none
    match wopt with
    | none => .error .notFound
    | some w =>
      let ws1 := creditWallet st.wallets w.wallet_id amount
      let txn : Txn :=
        { transaction_id := txid
          wallet_id := w.wallet_id
          from_wallet := none
          to_wallet := some w.wallet_id
          amount := amount
          fee := 0
          channel := source
          status := "completed"
          external_reference := some reference }
      .ok ({ wallets := ws1, merchants := st.merchants, transactions := txn :: st.transactions },
           { transaction_id := txid
             amount := amount
             old_balance := w.balance
             new_balance := w.balance + amount })

/-- Shallow embedding of the wallet-creation handler `create_wallet`
(`api_server.py` lines 337-453): merchant authentication, then a duplicate
check `SELECT wallet_id FROM wallets WHERE customer_phone = ?` that is
**global** (not scoped to the acting business), then the insert of an
`active` wallet holding the requested initial balance. No opening
transaction row is recorded. -/
def create_wallet (st : DBState) (user_type user_id customer_phone : String)
    (initial_balance daily_limit : ℚ) (new_wallet_id : String) :
    Except ApiError (DBState × Wallet) :=
  if user_type ≠ "merchant" then .error .authRequired
  else match findWalletByPhone st.wallets customer_phone with
  | some _ => .error .duplicateWallet
  | none =>
    let w : Wallet :=
      { wallet_id := new_wallet_id
        business_id := user_id
        customer_phone := customer_phone
        balance := initial_balance
        daily_limit := daily_limit
        status := "active" }
    .ok ({ st with wallets := st.wallets ++ [w] }, w)

/-- `Except.isOk` specialised to the handlers (used to state success/failure). -/
def exceptOk {α : Type} (r : Except ApiError α) : Bool :=
  match r with
  | .ok _ => true
  | .error _ => false

/-! ## The "enterprise" variant (`comprehensive_phantom_banking.py`) -/

/-- A row of the `businesses` table of the enterprise variant. -/
structure CompBusiness where
  id : String
  status : String
deriving Repr, DecidableEq

/-- A `PhantomWallet` row of the enterprise variant (ledger-relevant columns). -/
structure CompWallet where
  id : String
  business_id : String
  customer_phone : String
  balance : ℚ
  daily_limit : ℚ
  monthly_limit : ℚ
  status : String
deriving Repr, DecidableEq

/-- A `Transaction` row of the enterprise variant. Timestamps are modelled by
the calendar-day index of `date(timestamp)` (what the SQL date comparisons
act on). -/
structure CompTxn where
  wallet_id : String
  amount : ℚ
  status : String
  day : Int
deriving Repr, DecidableEq

/-- The daily total of `PhantomWallet.check_limits`: sum of the amounts of
`completed` transactions of the wallet whose date equals today. -/
def daily_total (txns : List CompTxn) (wid : String) (today : Int) : ℚ :=
  ((txns.filter (fun t => t.wallet_id == wid && t.day == today && t.status == "completed")).map
    (·.amount)).sum

/-- The monthly total of `PhantomWallet.check_limits`: sum of the amounts of
`completed` transactions of the wallet dated on or after the first day of the
current month (`this_month = datetime.now().replace(day=1).date()`). -/
def monthly_total (txns : List CompTxn) (wid : String) (monthStart : Int) : ℚ :=
  ((txns.filter (fun t =>
      t.wallet_id == wid && decide (monthStart ≤ t.day) && t.status == "completed")).map
    (·.amount)).sum

/-- Shallow embedding of `PhantomWallet.check_limits`
(`comprehensive_phantom_banking.py` lines 272-311). -/
def check_limits (w : CompWallet) (amount : ℚ) (txns : List CompTxn) (today monthStart : Int) :
    Bool × String :=
  let dt := daily_total txns w.id today
  let mt := monthly_total txns w.id monthStart
  if dt + amount > w.daily_limit then (false, "Daily limit exceeded")
  else if mt + amount > w.monthly_limit then (false, "Monthly limit exceeded")
  else (true, "OK")

/-- Shallow embedding of the validation-and-credit core of
`PaymentProcessor.process_payment` (`comprehensive_phantom_banking.py` lines
440-510): wallet lookup by primary key, active-status check, min/max amount
check (`MIN_TRANSACTION_AMOUNT = 1.0`, `MAX_TRANSACTION_AMOUNT = 100000.0`),
rolling-limit check, then the credit of the wallet. -/
def process_payment (ws : List CompWallet) (txns : List CompTxn) (wallet_id : String)
    (amount : ℚ) (today monthStart : Int) : Except String (List CompWallet) :=
  match ws.find? (fun w => w.id == wallet_id) with
  | none => .error "WALLET_NOT_FOUND"
  | some w =>
    if w.status ≠ "active" then .error "WALLET_INACTIVE"
    else if amount < 1 then .error "AMOUNT_TOO_LOW"
    else if amount > 100000 then .error "AMOUNT_TOO_HIGH"
    else if (check_limits w amount txns today monthStart).1 = false then .error "LIMIT_EXCEEDED"
    else .ok (ws.map (fun x => if x.id == wallet_id then { x with balance := x.balance + amount } else x))

/-- Shallow embedding of `WalletService.create_wallet`
(`comprehensive_phantom_banking.py` lines 548-597): business lookup and
active check, then a duplicate check scoped to `(business_id, customer_phone)`,
then the insert of an active wallet with balance 0. -/
def comp_create_wallet (bs : List CompBusiness) (ws : List CompWallet)
    (business_id phone : String) (daily_limit : ℚ) (newId : String) :
    Except String (List CompWallet) :=
  match bs.find? (fun b => b.id == business_id) with
  | none => .error "Business not found or inactive"
  | some b =>
    if b.status ≠ "active" then .error "Business not found or inactive"
    else match ws.find? (fun w => w.business_id == business_id && w.customer_phone == phone) with
    | some _ => .error "Customer already has a wallet with this business"
    | none =>
      .ok (ws ++ [{ id := newId, business_id := business_id, customer_phone := phone,
                    balance := 0, daily_limit := daily_limit, monthly_limit := 50000,
                    status := "active" }])

/-! ## Helper lemmas about the store primitives -/

/-- `adjRow` never changes a row's identity, owner, phone, limit or status. -/
theorem adjRow_fields (tid : String) (f : ℚ → ℚ) (w : Wallet) :
    (adjRow tid f w).wallet_id = w.wallet_id ∧
    (adjRow tid f w).business_id = w.business_id ∧
    (adjRow tid f w).customer_phone = w.customer_phone ∧
    (adjRow tid f w).daily_limit = w.daily_limit ∧
    (adjRow tid f w).status = w.status := by
  unfold adjRow
  split <;> simp

/-- `adjRow` is the identity on rows whose id differs from the target. -/
theorem adjRow_ne (tid : String) (f : ℚ → ℚ) (w : Wallet) (h : w.wallet_id ≠ tid) :
    adjRow tid f w = w := by
  unfold adjRow
  simp [h]

/-- `adjRow` rewrites the balance of rows whose id matches the target. -/
theorem adjRow_eq (tid : String) (f : ℚ → ℚ) (w : Wallet) (h : w.wallet_id = tid) :
    adjRow tid f w = { w with balance := f w.balance } := by
  unfold adjRow
  simp [h]

/-- A row lookup whose predicate ignores the balance commutes with a balance
update: the updated store finds the updated image of the row the original
store found. -/
theorem find?_adjustBalance (ws : List Wallet) (tid : String) (f : ℚ → ℚ)
    (p : Wallet → Bool) (hp : ∀ w, p (adjRow tid f w) = p w) :
    (adjustBalance ws tid f).find? p = (ws.find? p).map (adjRow tid f) := by
  unfold adjustBalance
  rw [List.find?_map]
  have hfun : (p ∘ adjRow tid f) = p := funext hp
  rw [hfun]

/-- Lookup by wallet id after a balance update of a *different* wallet. -/
theorem findWalletById_adjust_ne (ws : List Wallet) (tid wid : String) (f : ℚ → ℚ)
    (h : wid ≠ tid) :
    findWalletById (adjustBalance ws tid f) wid = findWalletById ws wid := by
  unfold findWalletById
  rw [find?_adjustBalance ws tid f _ (fun w => by
    unfold adjRow; split <;> simp)]
  cases hf : ws.find? (fun w => w.wallet_id == wid) with
  | none => rfl
  | some w =>
    have hw := List.find?_some hf
    have hid : w.wallet_id = wid := by simpa using hw
    simp [adjRow_ne tid f w (by rw [hid]; exact h)]

/-- Lookup by wallet id after a balance update of the *same* wallet. -/
theorem findWalletById_adjust_eq (ws : List Wallet) (tid : String) (f : ℚ → ℚ) :
    findWalletById (adjustBalance ws tid f) tid =
      (findWalletById ws tid).map (fun w => { w with balance := f w.balance }) := by
  unfold findWalletById
  rw [find?_adjustBalance ws tid f _ (fun w => by
    unfold adjRow; split <;> simp)]
  cases hf : ws.find? (fun w => w.wallet_id == tid) with
  | none => rfl
  | some w =>
    have hw := List.find?_some hf
    have hid : w.wallet_id = tid := by simpa using hw
    simp [adjRow_eq tid f w hid]

/-- Lookup by id-and-active-status after a balance update of a different wallet. -/
theorem findActiveWallet_adjust_ne (ws : List Wallet) (tid wid : String) (f : ℚ → ℚ)
    (h : wid ≠ tid) :
    findActiveWallet (adjustBalance ws tid f) wid = findActiveWallet ws wid := by
  unfold findActiveWallet
  rw [find?_adjustBalance ws tid f _ (fun w => by
    unfold adjRow; split <;> simp)]
  cases hf : ws.find? (fun w => w.wallet_id == wid && w.status == "active") with
  | none => rfl
  | some w =>
    have hw := List.find?_some hf
    have hid : w.wallet_id = wid := by
      have := (Bool.and_eq_true _ _).mp hw
      simpa using this.1
    simp [adjRow_ne tid f w (by rw [hid]; exact h)]

/-! ## Concrete fixtures -/

/-- Fixture for C1: a sender wallet with balance 0 and an active recipient
wallet with balance 50. -/
def stC1 : DBState :=
  { wallets := [
      { wallet_id := "pw_bw_2025_aa000001", business_id := "merchant_001",
        customer_phone := "+26771000001", balance := 0, daily_limit := 5000,
        status := "active" },
      { wallet_id := "pw_bw_2025_bb000002", business_id := "merchant_002",
        customer_phone := "+26772000002", balance := 50, daily_limit := 5000,
        status := "active" }],
    merchants := [{ id := "merchant_001", balance := 1000, status := "active" }],
    transactions := [] }

/-- Fixture for C1: a send of BWP −100 over the `phantom_wallet` channel. -/
def reqC1 : SendRequest :=
  { user_type := "customer", customer_phone := some "+26771000001",
    wallet_id := some "pw_bw_2025_aa000001", amount := -100,
    channel := "phantom_wallet", recipient := "pw_bw_2025_bb000002" }

/-- C1: the balance-nonnegativity invariant is violated by the code. With no
validation of the amount, `customer_send_payment` accepts `amount = -100`
over the `phantom_wallet` channel: the balance check `balance < amount + fee`
passes (0 < −100 is false), the phantom recipient is credited the negative
amount, and its balance drops from 50 to −50. Likewise `customer_topup`
accepts `amount = -100` and drives the topped-up wallet's balance from 50 to
−50. -/
theorem C1_negative_amount_drives_balance_negative :
    exceptOk (customer_send_payment stC1 reqC1 "txn_bw_2025_00000001") = true ∧
    (customer_send_payment stC1 reqC1 "txn_bw_2025_00000001").toOption.map
      (fun p => balanceOf p.1 "pw_bw_2025_bb000002") = some (some (-50)) ∧
    (customer_topup stC1 "customer" (some "+26772000002") (-100) "orange_money"
        "OM-REF-1" "txn_bw_2025_00000002").toOption.map
      (fun p => balanceOf p.1 "pw_bw_2025_bb000002") = some (some (-50)) := by
  refine ⟨?_, ?_, ?_⟩ <;>
    (simp +decide [customer_send_payment, customer_topup, stC1, reqC1, findActiveWallet,
      findWalletById, findWalletByPhone, balanceOf, exceptOk, debitWallet, creditWallet,
      adjustBalance, adjRow, feeFor, fee_structure, traditional_fees, List.find?,
      Except.toOption, List.lookup, strStartsWith] <;> norm_num)

/-- Fixture for C4: an active wallet whose balance (10000) comfortably covers
a send of 6000 that its daily limit (5000) forbids; the transaction log is
empty, so the daily and monthly totals are 0. -/
def stC4 : DBState :=
  { wallets := [
      { wallet_id := "pw_bw_2025_cc000004", business_id := "merchant_001",
        customer_phone := "+26774000004", balance := 10000, daily_limit := 5000,
        status := "active" }],
    merchants := [],
    transactions := [] }

/-- Fixture for C4: a send of BWP 6000 via `orange_money`. -/
def reqC4 : SendRequest :=
  { user_type := "customer", customer_phone := some "+26774000004",
    wallet_id := some "pw_bw_2025_cc000004", amount := 6000,
    channel := "orange_money", recipient := "+26799000099" }

/-- C4 counterexample: `customer_send_payment` performs no rolling-limit
check. With an empty transaction log (`daily_total = 0`) and
`daily_limit = 5000`, a send of 6000 satisfies
`daily_total + amount > daily_limit`, yet the call succeeds and debits the
wallet (10000 − 6000 − 2.50 = 3997.50) instead of being rejected before any
mutation. -/
theorem C4_send_ignores_rolling_limits :
    stC4.transactions = [] ∧
    (findWalletById stC4.wallets "pw_bw_2025_cc000004").map (·.daily_limit) = some 5000 ∧
    ((0 : ℚ) + 6000 > 5000) ∧
    exceptOk (customer_send_payment stC4 reqC4 "txn_bw_2025_00000004") = true ∧
    (customer_send_payment stC4 reqC4 "txn_bw_2025_00000004").toOption.map
      (fun p => balanceOf p.1 "pw_bw_2025_cc000004") = some (some 3997.5) := by
  refine ⟨rfl, by simp +decide [stC4, findWalletById, List.find?], by norm_num, ?_, ?_⟩ <;>
    (simp +decide [customer_send_payment, stC4, reqC4, findActiveWallet, findWalletById,
      balanceOf, exceptOk, debitWallet, creditWallet, adjustBalance, adjRow, feeFor,
      fee_structure, traditional_fees, List.find?, Except.toOption, List.lookup, strStartsWith,
      show ¬((10000 : ℚ) < 6000 + 5/2) by norm_num,
      show ((0 : ℚ) < 92 - 5/2) by norm_num] <;> norm_num)

/-- C5 counterexample: the fee table consulted by `customer_send_payment` has
no `bank_transfer`/`eft` entries, so both fall to the generic 2.50 default
instead of the 5.00 the claim states; the 5.00 entries exist only in
`config.py`, which the send path never consults. -/
theorem C5_bank_transfer_fee_is_default :
    feeFor "bank_transfer" = 2.5 ∧
    feeFor "eft" = 2.5 ∧
    (2.5 : ℚ) ≠ 5 ∧
    config_get_fee "bank_transfer" = 5 ∧
    config_get_fee "eft" = 5 := by
  refine ⟨?_, ?_, by norm_num, ?_, ?_⟩ <;>
    simp +decide [feeFor, fee_structure, config_get_fee, config_FEE_STRUCTURE, List.lookup] <;>
    norm_num

/-- Fixture for C6: one active sender with balance 100; the recipient id
`pw_bw_2025_zz_missing` does not exist in the wallet store. -/
def stC6 : DBState :=
  { wallets := [
      { wallet_id := "pw_bw_2025_dd000006", business_id := "merchant_001",
        customer_phone := "+26776000006", balance := 100, daily_limit := 5000,
        status := "active" }],
    merchants := [],
    transactions := [] }

/-- Fixture for C6: a `phantom_wallet` send of BWP 10 to the missing wallet. -/
def reqC6 : SendRequest :=
  { user_type := "customer", customer_phone := some "+26776000006",
    wallet_id := some "pw_bw_2025_dd000006", amount := 10,
    channel := "phantom_wallet", recipient := "pw_bw_2025_zz_missing" }

/-- C6: a `phantom_wallet` send whose recipient cannot be resolved to any
wallet or merchant is *not* rejected with a not-found error: the call
succeeds, the sender is debited (100 → 90), the raw recipient string is
stored in `to_wallet`, and the transfer silently degrades to an untracked
"external" payout — exactly the fall-through the spec flags as a bug. -/
theorem C6_unresolvable_phantom_recipient_falls_through :
    exceptOk (customer_send_payment stC6 reqC6 "txn_bw_2025_00000006") = true ∧
    (customer_send_payment stC6 reqC6 "txn_bw_2025_00000006").toOption.map
      (fun p => balanceOf p.1 "pw_bw_2025_dd000006") = some (some 90) ∧
    (customer_send_payment stC6 reqC6 "txn_bw_2025_00000006").toOption.map
      (fun p => p.1.transactions.head?.map (·.to_wallet)) =
      some (some (some "pw_bw_2025_zz_missing")) ∧
    (customer_send_payment stC6 reqC6 "txn_bw_2025_00000006").toOption.map
      (fun p => p.2.recipient_type) = some "external" := by
  refine ⟨?_, ?_, ?_, ?_⟩ <;>
    (simp +decide [customer_send_payment, stC6, reqC6, findActiveWallet, findWalletById,
      balanceOf, exceptOk, debitWallet, creditWallet, adjustBalance, adjRow, feeFor,
      fee_structure, traditional_fees, List.find?, Except.toOption, List.lookup,
      strStartsWith] <;> norm_num)

/-- Fixture for C7: a wallet for phone `+26771000007` owned by
`merchant_001`. -/
def stC7 : DBState :=
  { wallets := [
      { wallet_id := "pw_bw_2025_ee000007", business_id := "merchant_001",
        customer_phone := "+26771000007", balance := 0, daily_limit := 5000,
        status := "active" }],
    merchants := [],
    transactions := [] }

/-- C7 counterexample: in `api_server.py` the duplicate-phone check is
global, so a *different* business (`merchant_002`) creating a wallet for a
phone already used under `merchant_001` is rejected with the duplicate
error instead of succeeding as the claim states. -/
theorem C7_same_phone_other_business_rejected :
    create_wallet stC7 "merchant" "merchant_002" "+26771000007" 0 5000 "pw_bw_2025_ff000008"
      = .error .duplicateWallet := by
  simp +decide [create_wallet, stC7, findWalletByPhone, List.find?]

/-- Fixture for C8: a wallet in status `dormant` (one of the seeded non-active
statuses) with balance 20, owned by `merchant_001`. -/
def wC8 : Wallet :=
  { wallet_id := "pw_bw_2025_gg000008", business_id := "merchant_001",
    customer_phone := "+26778000008", balance := 20, daily_limit := 5000,
    status := "dormant" }

/-- Fixture for C8: the store holding only the dormant wallet. -/
def stC8 : DBState :=
  { wallets := [wC8], merchants := [], transactions := [] }

/-- C8 counterexample: `merchant_topup_wallet` looks the wallet up with no
status filter and never checks `status`, so a top-up of 300 against a
`dormant` wallet succeeds and changes its balance from 20 to 320, instead of
failing with an inactive-wallet error and leaving the balance unchanged. -/
theorem C8_topup_credits_dormant_wallet :
    (findWalletById stC8.wallets "pw_bw_2025_gg000008").map (·.status) = some "dormant" ∧
    exceptOk (merchant_topup_wallet stC8 "merchant" "merchant_001" "pw_bw_2025_gg000008"
      300 "txn_bw_2025_00000008") = true ∧
    (merchant_topup_wallet stC8 "merchant" "merchant_001" "pw_bw_2025_gg000008"
        300 "txn_bw_2025_00000008").toOption.map
      (fun p => balanceOf p.1 "pw_bw_2025_gg000008") = some (some 320) := by
  refine ⟨?_, ?_, ?_⟩ <;>
    (simp +decide [merchant_topup_wallet, stC8, wC8, findWalletById, balanceOf, exceptOk,
      creditWallet, adjustBalance, adjRow, List.find?, Except.toOption] <;> norm_num)

/-- Fixture for C9: an active wallet for phone `+26779000009` with balance 50. -/
def wC9 : Wallet :=
  { wallet_id := "pw_bw_2025_hh000009", business_id := "merchant_001",
    customer_phone := "+26779000009", balance := 50, daily_limit := 5000,
    status := "active" }

/-- Fixture for C9: the store holding only that wallet. -/
def stC9 : DBState :=
  { wallets := [wC9], merchants := [], transactions := [] }

/-- C9 counterexample: `customer_topup` performs no amount validation at all.
An amount of −50 — far below any minimum-transaction amount — is accepted
and credited, dropping the balance from 50 to 0, instead of being rejected
with no mutation. -/
theorem C9_topup_accepts_invalid_amount :
    ((-50 : ℚ) < 1) ∧
    exceptOk (customer_topup stC9 "customer" (some "+26779000009") (-50) "orange_money"
      "OM-REF-9" "txn_bw_2025_00000009") = true ∧
    (customer_topup stC9 "customer" (some "+26779000009") (-50) "orange_money"
        "OM-REF-9" "txn_bw_2025_00000009").toOption.map
      (fun p => balanceOf p.1 "pw_bw_2025_hh000009") = some (some 0) := by
  refine ⟨by norm_num, ?_, ?_⟩ <;>
    simp +decide [customer_topup, stC9, wC9, findWalletByPhone, findWalletById, balanceOf,
      exceptOk, creditWallet, adjustBalance, adjRow, List.find?, Except.toOption]

/-! ## Claim theorems (general statements) -/

/-- C2: a `phantom_wallet`-channel send between two distinct wallets of the
system (the recipient id carries the `pw_bw_` prefix and resolves to an
active wallet) records exactly one transaction row with both `from_wallet`
and `to_wallet` set, debits the sender by `amount + fee`, credits the
recipient by `amount`, and changes the sum of the two balances by exactly
the retained fee — which is 0 for this channel. The `findWalletById`
hypotheses encode that the two `wallet_id`s are primary keys: the plain
by-id lookup returns the same rows the status-filtered lookup found. -/
theorem C2_phantom_transfer_conserves_sum (st : DBState) (req : SendRequest)
    (txid ph wid rid : String) (sw rw : Wallet)
    (hcust : req.user_type = "customer")
    (hph : req.customer_phone = some ph)
    (hwid : req.wallet_id = some wid)
    (hs : findActiveWallet st.wallets wid = some sw)
    (hs0 : findWalletById st.wallets sw.wallet_id = some sw)
    (hchan : req.channel = "phantom_wallet")
    (hrec : req.recipient = rid)
    (hne0 : rid ≠ "")
    (hpw : strStartsWith rid "pw_bw_" = true)
    (hr : findActiveWallet st.wallets rid = some rw)
    (hr0 : findWalletById st.wallets rid = some rw)
    (hne : sw.wallet_id ≠ rid)
    (hbal : ¬ (sw.balance < req.amount + feeFor "phantom_wallet")) :
    (customer_send_payment st req txid).toOption.map (fun p => p.1.transactions) =
      some ({ transaction_id := txid, wallet_id := sw.wallet_id,
              from_wallet := some sw.wallet_id, to_wallet := some rid,
              amount := req.amount, fee := feeFor "phantom_wallet",
              channel := "phantom_wallet", status := "completed",
              external_reference := none } :: st.transactions) ∧
    (customer_send_payment st req txid).toOption.map (fun p => balanceOf p.1 sw.wallet_id) =
      some (some (sw.balance - (req.amount + feeFor "phantom_wallet"))) ∧
    (customer_send_payment st req txid).toOption.map (fun p => balanceOf p.1 rid) =
      some (some (rw.balance + req.amount)) ∧
    feeFor "phantom_wallet" = 0 ∧
    (sw.balance - (req.amount + feeFor "phantom_wallet")) + (rw.balance + req.amount) =
      sw.balance + rw.balance - feeFor "phantom_wallet" := by
  have hrs : findActiveWallet
      (debitWallet st.wallets sw.wallet_id (req.amount + feeFor "phantom_wallet")) rid = some rw := by
    unfold debitWallet
    rw [findActiveWallet_adjust_ne st.wallets sw.wallet_id rid _ (Ne.symm hne)]
    exact hr
  have hsb : findWalletById
      (creditWallet (debitWallet st.wallets sw.wallet_id (req.amount + feeFor "phantom_wallet"))
        rid req.amount) sw.wallet_id
      = some { sw with balance := sw.balance - (req.amount + feeFor "phantom_wallet") } := by
    unfold creditWallet
    rw [findWalletById_adjust_ne _ rid sw.wallet_id _ hne]
    unfold debitWallet
    rw [findWalletById_adjust_eq]
    rw [hs0]
    rfl
  have hrb : findWalletById
      (creditWallet (debitWallet st.wallets sw.wallet_id (req.amount + feeFor "phantom_wallet"))
        rid req.amount) rid
      = some { rw with balance := rw.balance + req.amount } := by
    unfold creditWallet
    rw [findWalletById_adjust_eq]
    unfold debitWallet
    rw [findWalletById_adjust_ne _ sw.wallet_id rid _ (Ne.symm hne)]
    rw [hr0]
    rfl
  refine ⟨?_, ?_, ?_, ?_, ?_⟩
  · simp [customer_send_payment, hcust, hph, hwid, hs, hchan, hrec, hne0, hpw, hbal, hrs]
    exact ⟨_, ⟨_, rfl⟩, rfl⟩
  · simp [customer_send_payment, hcust, hph, hwid, hs, hchan, hrec, hne0, hpw, hbal, hrs,
      balanceOf]
    exact ⟨_, ⟨_, rfl⟩, _, hsb, rfl⟩
  · simp [customer_send_payment, hcust, hph, hwid, hs, hchan, hrec, hne0, hpw, hbal, hrs,
      balanceOf]
    exact ⟨_, ⟨_, rfl⟩, _, hrb, rfl⟩
  · simp [feeFor, fee_structure, List.lookup]
  · have h0 : feeFor "phantom_wallet" = 0 := by simp [feeFor, fee_structure, List.lookup]
    rw [h0]; ring

/-- C3: the balance check of `customer_send_payment` is `balance < amount +
fee`, so `amount + fee = balance` exactly succeeds (inclusive boundary),
while `amount + fee > balance` fails with the insufficient-balance error
carrying the available balance and the required total. The error return
happens before any `UPDATE`/`INSERT` is executed, so it leaves the store
untouched (the embedding returns no successor state on error). -/
theorem C3_insufficient_funds_boundary (st : DBState) (req : SendRequest)
    (txid ph wid : String) (sw : Wallet)
    (hcust : req.user_type = "customer")
    (hph : req.customer_phone = some ph)
    (hwid : req.wallet_id = some wid)
    (hs : findActiveWallet st.wallets wid = some sw) :
    (sw.balance = req.amount + feeFor req.channel →
      exceptOk (customer_send_payment st req txid) = true) ∧
    (sw.balance < req.amount + feeFor req.channel →
      customer_send_payment st req txid =
        .error (.insufficientBalance sw.balance (req.amount + feeFor req.channel))) := by
  constructor
  · intro heq
    simp [customer_send_payment, hcust, hph, hwid, hs, exceptOk, heq]
  · intro hlt
    simp [customer_send_payment, hcust, hph, hwid, hs, hlt]

/-- C4 (amended): `PhantomWallet.check_limits` rejects exactly when
`daily_total + amount > daily_limit` or `monthly_total + amount >
monthly_limit`, with the totals summed over completed transactions of the
current calendar day / since the first of the month — but this check is
consulted only by the enterprise variant's inbound `process_payment`.
`customer_send_payment` performs no rolling-limit check at all: given an
active sender wallet, its success is equivalent to `amount + fee ≤ balance`
alone, with the transaction history and the wallet's limits playing no
role. -/
theorem C4_amended_rolling_limits :
    (∀ (w : CompWallet) (amount : ℚ) (txns : List CompTxn) (today monthStart : Int),
      (check_limits w amount txns today monthStart).1 = false ↔
        (daily_total txns w.id today + amount > w.daily_limit ∨
         monthly_total txns w.id monthStart + amount > w.monthly_limit)) ∧
    (∀ (st : DBState) (req : SendRequest) (txid ph wid : String) (sw : Wallet),
      req.user_type = "customer" → req.customer_phone = some ph →
      req.wallet_id = some wid → findActiveWallet st.wallets wid = some sw →
      (exceptOk (customer_send_payment st req txid) = true ↔
        req.amount + feeFor req.channel ≤ sw.balance)) := by
  constructor
  · intro w amount txns today monthStart
    simp only [check_limits]
    split_ifs with h1 h2 <;> simp [*]
  · intro st req txid ph wid sw hcust hph hwid hs
    constructor
    · intro h
      by_contra hlt
      rw [not_le] at hlt
      simp [customer_send_payment, hcust, hph, hwid, hs, hlt, exceptOk] at h
    · intro hle
      have hbal : ¬ (sw.balance < req.amount + feeFor req.channel) := not_lt.mpr hle
      simp [customer_send_payment, hcust, hph, hwid, hs, hbal, exceptOk]

/-- C5 (amended): the fee table consulted by `customer_send_payment` is
exactly `phantom_wallet→0`, `qr_code→0`, `ussd→1.50`, `orange_money→2.50`,
`myzaka→3.00`, with every other channel — including `bank_transfer` and
`eft`, which have no entry in this table — falling to the generic default
2.50; and on success the sender's debit is `amount + fee_for(channel)`
(stated here for non-`phantom_wallet` channels, where no recipient credit
can interfere; the `phantom_wallet` debit is covered by the C2 theorem). -/
theorem C5_amended_fee_schedule :
    feeFor "phantom_wallet" = 0 ∧ feeFor "qr_code" = 0 ∧ feeFor "ussd" = 1.5 ∧
    feeFor "orange_money" = 2.5 ∧ feeFor "myzaka" = 3 ∧
    (∀ c, fee_structure.lookup c = none → feeFor c = 2.5) ∧
    (∀ (st : DBState) (req : SendRequest) (txid ph wid : String) (sw : Wallet),
      req.user_type = "customer" → req.customer_phone = some ph →
      req.wallet_id = some wid → findActiveWallet st.wallets wid = some sw →
      findWalletById st.wallets sw.wallet_id = some sw →
      req.channel ≠ "phantom_wallet" →
      ¬ (sw.balance < req.amount + feeFor req.channel) →
      (customer_send_payment st req txid).toOption.map (fun p => balanceOf p.1 sw.wallet_id) =
        some (some (sw.balance - (req.amount + feeFor req.channel)))) := by
  refine ⟨by simp +decide [feeFor, fee_structure, List.lookup] <;> norm_num,
    by simp +decide [feeFor, fee_structure, List.lookup] <;> norm_num,
    by simp +decide [feeFor, fee_structure, List.lookup] <;> norm_num,
    by simp +decide [feeFor, fee_structure, List.lookup] <;> norm_num,
    by simp +decide [feeFor, fee_structure, List.lookup] <;> norm_num, ?_, ?_⟩
  · intro c hc
    simp [feeFor, hc]
    norm_num
  · intro st req txid ph wid sw hcust hph hwid hs hs0 hchan hbal
    have hsb : findWalletById (debitWallet st.wallets sw.wallet_id
        (req.amount + feeFor req.channel)) sw.wallet_id
        = some { sw with balance := sw.balance - (req.amount + feeFor req.channel) } := by
      unfold debitWallet
      rw [findWalletById_adjust_eq, hs0]
      rfl
    simp [customer_send_payment, hcust, hph, hwid, hs, hbal, hchan, balanceOf]
    exact ⟨_, ⟨_, rfl⟩, _, hsb, rfl⟩

/-- C7 (amended): in `api_server.py` the duplicate-phone check of
`create_wallet` is global — any existing wallet with the same phone, under
*any* business, causes the duplicate rejection with no mutation, and only a
globally unused phone leads to the insert. Per-business scoping exists only
in the enterprise variant: `WalletService.create_wallet` rejects exactly on
an existing `(business_id, phone)` pair, so there the same phone under a
different (active) business succeeds. -/
theorem C7_amended_phone_uniqueness :
    (∀ (st : DBState) (bid ph : String) (ib dl : ℚ) (nid : String) (w : Wallet),
      findWalletByPhone st.wallets ph = some w →
      create_wallet st "merchant" bid ph ib dl nid = .error .duplicateWallet) ∧
    (∀ (st : DBState) (bid ph : String) (ib dl : ℚ) (nid : String),
      findWalletByPhone st.wallets ph = none →
      create_wallet st "merchant" bid ph ib dl nid =
        .ok ({ st with wallets := st.wallets ++
                [{ wallet_id := nid, business_id := bid, customer_phone := ph,
                   balance := ib, daily_limit := dl, status := "active" }] },
             { wallet_id := nid, business_id := bid, customer_phone := ph,
               balance := ib, daily_limit := dl, status := "active" })) ∧
    (∀ (bs : List CompBusiness) (ws : List CompWallet) (bid ph : String) (dl : ℚ)
       (nid : String) (w : CompWallet),
      ws.find? (fun x => x.business_id == bid && x.customer_phone == ph) = some w →
      (∀ r, comp_create_wallet bs ws bid ph dl nid ≠ .ok r)) ∧
    (∀ (bs : List CompBusiness) (ws : List CompWallet) (b : CompBusiness)
       (bid ph : String) (dl : ℚ) (nid : String),
      bs.find? (fun x => x.id == bid) = some b → b.status = "active" →
      ws.find? (fun x => x.business_id == bid && x.customer_phone == ph) = none →
      comp_create_wallet bs ws bid ph dl nid =
        .ok (ws ++ [{ id := nid, business_id := bid, customer_phone := ph,
                      balance := 0, daily_limit := dl, monthly_limit := 50000,
                      status := "active" }])) := by
  refine ⟨?_, ?_, ?_, ?_⟩
  · intro st bid ph ib dl nid w hw
    simp [create_wallet, hw]
  · intro st bid ph ib dl nid hnone
    simp [create_wallet, hnone]
  · intro bs ws bid ph dl nid w hdup r
    cases hb : bs.find? (fun x => x.id == bid) with
    | none => simp [comp_create_wallet, hb]
    | some b =>
      by_cases hst : b.status = "active"
      · simp [comp_create_wallet, hb, hst, hdup]
      · simp [comp_create_wallet, hb, hst]
  · intro bs ws b bid ph dl nid hb hst hnone
    simp [comp_create_wallet, hb, hst, hnone]

/-- C8 (amended): only `customer_send_payment` restricts itself to `active`
wallets (its lookup filters on status, so a wallet with no active row is
rejected with the not-found error); `merchant_topup_wallet` and
`customer_topup` look wallets up with no status filter and never check
status, so they succeed and credit the wallet whatever its status — the
hypotheses below place no constraint on `w.status`. The enterprise
variant's `process_payment` does reject non-active wallets. -/
theorem C8_amended_status_checks :
    (∀ (st : DBState) (req : SendRequest) (txid ph wid : String),
      req.user_type = "customer" → req.customer_phone = some ph →
      req.wallet_id = some wid → findActiveWallet st.wallets wid = none →
      customer_send_payment st req txid = .error .notFound) ∧
    (∀ (st : DBState) (uid wid : String) (amount : ℚ) (txid : String) (w : Wallet),
      0 < amount → findWalletById st.wallets wid = some w → w.business_id = uid →
      exceptOk (merchant_topup_wallet st "merchant" uid wid amount txid) = true ∧
      (merchant_topup_wallet st "merchant" uid wid amount txid).toOption.map
        (fun p => balanceOf p.1 wid) = some (some (w.balance + amount))) ∧
    (∀ (st : DBState) (phone : String) (amount : ℚ) (src ref txid : String) (w : Wallet),
      findWalletByPhone st.wallets phone = some w →
      exceptOk (customer_topup st "customer" (some phone) amount src ref txid) = true) ∧
    (∀ (ws : List CompWallet) (txns : List CompTxn) (wid : String) (amount : ℚ)
       (today monthStart : Int) (w : CompWallet),
      ws.find? (fun x => x.id == wid) = some w → w.status ≠ "active" →
      process_payment ws txns wid amount today monthStart = .error "WALLET_INACTIVE") := by
  refine ⟨?_, ?_, ?_, ?_⟩
  · intro st req txid ph wid hcust hph hwid hnone
    simp [customer_send_payment, hcust, hph, hwid, hnone]
  · intro st uid wid amount txid w hpos hw hbid
    have hnle : ¬ (amount ≤ 0) := not_le.mpr hpos
    have hcb : findWalletById (creditWallet st.wallets wid amount) wid
        = some { w with balance := w.balance + amount } := by
      unfold creditWallet
      rw [findWalletById_adjust_eq, hw]
      rfl
    constructor
    · simp [merchant_topup_wallet, hnle, hw, hbid, exceptOk]
    · simp [merchant_topup_wallet, hnle, hw, hbid, balanceOf]
      exact ⟨_, ⟨_, rfl⟩, _, hcb, rfl⟩
  · intro st phone amount src ref txid w hw
    simp [customer_topup, hw, exceptOk]
  · intro ws txns wid amount today monthStart w hw hst
    simp [process_payment, hw, hst]

/-- C9 (amended): `customer_topup` performs no amount validation whatsoever:
for any amount — positive, zero or negative — once the wallet is found by
phone the credit is applied unconditionally, the balance grows by the full
amount, and the single recorded transaction has `to_wallet = wallet_id`,
fee 0, `channel = source` and the external reference. The minimum-amount
rejection described by the claim exists only in the enterprise variant's
`process_payment` (minimum 1.0). -/
theorem C9_amended_topup_no_validation :
    (∀ (st : DBState) (phone : String) (amount : ℚ) (src ref txid : String) (w : Wallet),
      findWalletByPhone st.wallets phone = some w →
      customer_topup st "customer" (some phone) amount src ref txid =
        .ok ({ wallets := creditWallet st.wallets w.wallet_id amount,
               merchants := st.merchants,
               transactions := { transaction_id := txid,
                                 wallet_id := w.wallet_id,
                                 from_wallet := none,
                                 to_wallet := some w.wallet_id,
                                 amount := amount,
                                 fee := 0,
                                 channel := src,
                                 status := "completed",
                                 external_reference := some ref } :: st.transactions },
             { transaction_id := txid, amount := amount, old_balance := w.balance,
               new_balance := w.balance + amount })) ∧
    (∀ (ws : List CompWallet) (txns : List CompTxn) (wid : String) (amount : ℚ)
       (today monthStart : Int) (w : CompWallet),
      ws.find? (fun x => x.id == wid) = some w → w.status = "active" → amount < 1 →
      process_payment ws txns wid amount today monthStart = .error "AMOUNT_TOO_LOW") := by
  constructor
  · intro st phone amount src ref txid w hw
    simp [customer_topup, hw]
  · intro ws txns wid amount today monthStart w hw hst hlt
    simp [process_payment, hw, hst, hlt]

/-- C10: `customer_send_payment` debits whatever active wallet the request
names, with no comparison of the authenticated caller's identity or phone
against the wallet's owner: when an explicit `wallet_id` is supplied the
outcome is literally independent of the caller's phone, the handler can
never return the unauthorized error, and on a funded wallet the debit
(`amount + fee`) lands on the named wallet. -/
theorem C10_send_debits_named_wallet (st : DBState) (req : SendRequest)
    (txid wid : String)
    (hcust : req.user_type = "customer")
    (hwid : req.wallet_id = some wid) :
    (∀ p1 p2 : String,
      customer_send_payment st { req with customer_phone := some p1 } txid =
      customer_send_payment st { req with customer_phone := some p2 } txid) ∧
    customer_send_payment st req txid ≠ .error ApiError.unauthorized ∧
    (∀ (sw : Wallet) (ph : String), req.customer_phone = some ph →
      findActiveWallet st.wallets wid = some sw →
      ¬ (sw.balance < req.amount + feeFor req.channel) →
      (customer_send_payment st req txid).toOption.map (fun p => p.2.new_balance) =
        some (sw.balance - (req.amount + feeFor req.channel))) := by
  refine ⟨?_, ?_, ?_⟩
  · intro p1 p2
    simp [customer_send_payment, hcust, hwid]
  · intro he
    simp only [customer_send_payment] at he
    repeat' split at he
    all_goals simp at he
  · intro sw ph hph hs hbal
    simp [customer_send_payment, hcust, hph, hwid, hs, hbal]
    exact ⟨_, _, rfl, rfl⟩

/-! ## Witnesses -/

/-- Witness fixture for C2: sender wallet with balance 100. -/
def wS2 : Wallet :=
  { wallet_id := "pw_bw_2025_s2000002", business_id := "merchant_001",
    customer_phone := "+26781000010", balance := 100, daily_limit := 5000,
    status := "active" }

/-- Witness fixture for C2: recipient wallet with balance 5. -/
def wR2 : Wallet :=
  { wallet_id := "pw_bw_2025_r2000002", business_id := "merchant_002",
    customer_phone := "+26782000011", balance := 5, daily_limit := 5000,
    status := "active" }

/-- Witness fixture for C2: the store with the two wallets. -/
def stW2 : DBState :=
  { wallets := [wS2, wR2], merchants := [], transactions := [] }

/-- Witness fixture for C2: a phantom transfer of 40 from the sender to the
recipient. -/
def reqW2 : SendRequest :=
  { user_type := "customer", customer_phone := some "+26781000010",
    wallet_id := some "pw_bw_2025_s2000002", amount := 40,
    channel := "phantom_wallet", recipient := "pw_bw_2025_r2000002" }

/-- Witness for C2 at a concrete transfer: 100/5 become 60/45 (sum conserved,
fee 0). -/
theorem C2_phantom_transfer_witness :
    (customer_send_payment stW2 reqW2 "t2").toOption.map
      (fun p => balanceOf p.1 wS2.wallet_id) = some (some 60) ∧
    (customer_send_payment stW2 reqW2 "t2").toOption.map
      (fun p => balanceOf p.1 "pw_bw_2025_r2000002") = some (some 45) := by
  have h := C2_phantom_transfer_conserves_sum stW2 reqW2 "t2" "+26781000010"
    "pw_bw_2025_s2000002" "pw_bw_2025_r2000002" wS2 wR2 rfl rfl rfl
    (by simp +decide [findActiveWallet, stW2, wS2, wR2, List.find?])
    (by simp +decide [findWalletById, stW2, wS2, wR2, List.find?])
    rfl rfl (by decide) (by decide)
    (by simp +decide [findActiveWallet, stW2, wS2, wR2, List.find?])
    (by simp +decide [findWalletById, stW2, wS2, wR2, List.find?])
    (by decide)
    (by simp +decide [wS2, reqW2, feeFor, fee_structure, List.lookup] <;> norm_num)
  have h2 := h.2.1
  have h3 := h.2.2.1
  constructor
  · rw [h2]
    simp +decide [wS2, reqW2, feeFor, fee_structure, List.lookup] <;> norm_num
  · rw [h3]
    simp +decide [wR2, reqW2] <;> norm_num

/-- Witness fixture for C3: a wallet with balance 101.50 = 100 + the 1.50
ussd fee. -/
def wW3 : Wallet :=
  { wallet_id := "pw_bw_2025_w3000003", business_id := "merchant_001",
    customer_phone := "+26783000012", balance := 101.5, daily_limit := 5000,
    status := "active" }

/-- Witness fixture for C3: the store with that wallet. -/
def stW3 : DBState :=
  { wallets := [wW3], merchants := [], transactions := [] }

/-- Witness fixture for C3: a ussd send of exactly 100 (amount + fee equals
the balance). -/
def reqW3a : SendRequest :=
  { user_type := "customer", customer_phone := some "+26783000012",
    wallet_id := some "pw_bw_2025_w3000003", amount := 100,
    channel := "ussd", recipient := "+26799000001" }

/-- Witness fixture for C3: a ussd send of 100.01 (one cent over the
balance). -/
def reqW3b : SendRequest :=
  { user_type := "customer", customer_phone := some "+26783000012",
    wallet_id := some "pw_bw_2025_w3000003", amount := 100.01,
    channel := "ussd", recipient := "+26799000001" }

/-- Witness for C3: at balance 101.50, a ussd send of 100 (total 101.50)
succeeds, and a ussd send of 100.01 (total 101.51) fails with the
insufficient-balance error citing the available balance and required
total. -/
theorem C3_boundary_witness :
    exceptOk (customer_send_payment stW3 reqW3a "t3") = true ∧
    customer_send_payment stW3 reqW3b "t3" =
      .error (.insufficientBalance 101.5 101.51) := by
  have hs : findActiveWallet stW3.wallets "pw_bw_2025_w3000003" = some wW3 := by
    simp +decide [findActiveWallet, stW3, wW3, List.find?]
  constructor
  · exact (C3_insufficient_funds_boundary stW3 reqW3a "t3" "+26783000012"
      "pw_bw_2025_w3000003" wW3 rfl rfl rfl hs).1
      (by simp +decide [wW3, reqW3a, feeFor, fee_structure, List.lookup] <;> norm_num)
  · have h := (C3_insufficient_funds_boundary stW3 reqW3b "t3" "+26783000012"
      "pw_bw_2025_w3000003" wW3 rfl rfl rfl hs).2
      (by simp +decide [wW3, reqW3b, feeFor, fee_structure, List.lookup] <;> norm_num)
    rw [h]
    simp +decide [wW3, reqW3b, feeFor, fee_structure, List.lookup] <;> norm_num

/-- Witness fixture for C4: an enterprise wallet whose daily limit is 5. -/
def cwW4 : CompWallet :=
  { id := "cw4", business_id := "merchant_001", customer_phone := "+26784000013",
    balance := 0, daily_limit := 5, monthly_limit := 50, status := "active" }

/-- Witness fixture for C4: an API wallet whose daily limit is 0 but whose
balance covers the send. -/
def wW4 : Wallet :=
  { wallet_id := "pw_bw_2025_w4000004", business_id := "merchant_001",
    customer_phone := "+26784000014", balance := 100, daily_limit := 0,
    status := "active" }

/-- Witness fixture for C4: the API store holding the zero-daily-limit
wallet. -/
def stW4 : DBState :=
  { wallets := [wW4], merchants := [], transactions := [] }

/-- Witness fixture for C4: a ussd send of 10 from the zero-daily-limit
wallet. -/
def reqW4 : SendRequest :=
  { user_type := "customer", customer_phone := some "+26784000014",
    wallet_id := some "pw_bw_2025_w4000004", amount := 10,
    channel := "ussd", recipient := "+26799000002" }

/-- Witness for C4 (amended): `check_limits` does reject 10 against a daily
limit of 5, while `customer_send_payment` succeeds on a wallet whose daily
limit is 0 — its success depends only on the balance. -/
theorem C4_amended_witness :
    (check_limits cwW4 10 [] 0 0).1 = false ∧
    (findWalletById stW4.wallets "pw_bw_2025_w4000004").map (·.daily_limit) = some 0 ∧
    exceptOk (customer_send_payment stW4 reqW4 "t4") = true := by
  refine ⟨?_, ?_, ?_⟩
  · exact (C4_amended_rolling_limits.1 cwW4 10 [] 0 0).mpr
      (Or.inl (by simp [daily_total, cwW4] <;> norm_num))
  · simp +decide [stW4, wW4, findWalletById, List.find?]
  · exact (C4_amended_rolling_limits.2 stW4 reqW4 "t4" "+26784000014"
      "pw_bw_2025_w4000004" wW4 rfl rfl rfl
      (by simp +decide [findActiveWallet, stW4, wW4, List.find?])).mpr
      (by simp +decide [wW4, reqW4, feeFor, fee_structure, List.lookup] <;> norm_num)

/-- Witness fixture for C5: an active wallet with balance 100. -/
def wW5 : Wallet :=
  { wallet_id := "pw_bw_2025_w5000005", business_id := "merchant_001",
    customer_phone := "+26785000015", balance := 100, daily_limit := 5000,
    status := "active" }

/-- Witness fixture for C5: the store holding that wallet. -/
def stW5 : DBState :=
  { wallets := [wW5], merchants := [], transactions := [] }

/-- Witness fixture for C5: a ussd send of 10. -/
def reqW5 : SendRequest :=
  { user_type := "customer", customer_phone := some "+26785000015",
    wallet_id := some "pw_bw_2025_w5000005", amount := 10,
    channel := "ussd", recipient := "+26799000003" }

/-- Witness for C5 (amended): an unknown channel gets the 2.50 default, and
a concrete ussd send debits exactly `amount + fee` (100 − 11.50 = 88.50). -/
theorem C5_amended_witness :
    feeFor "some_unknown_channel" = 2.5 ∧
    (customer_send_payment stW5 reqW5 "t5").toOption.map
      (fun p => balanceOf p.1 wW5.wallet_id) = some (some 88.5) := by
  constructor
  · exact C5_amended_fee_schedule.2.2.2.2.2.1 "some_unknown_channel"
      (by simp +decide [fee_structure, List.lookup])
  · have h := C5_amended_fee_schedule.2.2.2.2.2.2 stW5 reqW5 "t5" "+26785000015"
      "pw_bw_2025_w5000005" wW5 rfl rfl rfl
      (by simp +decide [findActiveWallet, stW5, wW5, List.find?])
      (by simp +decide [findWalletById, stW5, wW5, List.find?])
      (by decide)
      (by simp +decide [wW5, reqW5, feeFor, fee_structure, List.lookup] <;> norm_num)
    rw [h]
    simp +decide [wW5, reqW5, feeFor, fee_structure, List.lookup] <;> norm_num

/-- Witness fixture for C7: an active business `merchant_002` in the
enterprise variant. -/
def bW7 : CompBusiness :=
  { id := "merchant_002", status := "active" }

/-- Witness fixture for C7: an enterprise wallet for the phone, owned by
`merchant_001`. -/
def cwW7 : CompWallet :=
  { id := "cw7", business_id := "merchant_001", customer_phone := "+26771000007",
    balance := 0, daily_limit := 5000, monthly_limit := 50000, status := "active" }

/-- Witness for C7 (amended): with no wallet for the phone, the API server
creates one; and in the enterprise variant the same phone already used under
`merchant_001` can still get a wallet under `merchant_002` (per-business
scoping). -/
theorem C7_amended_witness :
    create_wallet ⟨[], [], []⟩ "merchant" "merchant_001" "+26771000007" 0 5000
      "pw_bw_2025_n7000007" =
      .ok (⟨[{ wallet_id := "pw_bw_2025_n7000007", business_id := "merchant_001",
               customer_phone := "+26771000007", balance := 0, daily_limit := 5000,
               status := "active" }], [], []⟩,
           { wallet_id := "pw_bw_2025_n7000007", business_id := "merchant_001",
             customer_phone := "+26771000007", balance := 0, daily_limit := 5000,
             status := "active" }) ∧
    comp_create_wallet [bW7] [cwW7] "merchant_002" "+26771000007" 5000 "cw7b" =
      .ok ([cwW7] ++ [{ id := "cw7b", business_id := "merchant_002",
                        customer_phone := "+26771000007", balance := 0,
                        daily_limit := 5000, monthly_limit := 50000,
                        status := "active" }]) := by
  constructor
  · have h := C7_amended_phone_uniqueness.2.1 ⟨[], [], []⟩ "merchant_001"
      "+26771000007" 0 5000 "pw_bw_2025_n7000007"
      (by simp [findWalletByPhone, List.find?])
    simpa using h
  · exact C7_amended_phone_uniqueness.2.2.2 [bW7] [cwW7] bW7 "merchant_002"
      "+26771000007" 5000 "cw7b"
      (by simp +decide [bW7, List.find?])
      (by simp [bW7])
      (by simp +decide [cwW7, List.find?])

/-- Witness for C8 (amended): the top-up path really does credit the dormant
wallet of the C8 fixture (no status hypothesis is needed), and a send
against a store with no active row for the id is rejected. -/
theorem C8_amended_witness :
    (findWalletById stC8.wallets "pw_bw_2025_gg000008").map (·.status) = some "dormant" ∧
    exceptOk (merchant_topup_wallet stC8 "merchant" "merchant_001"
      "pw_bw_2025_gg000008" 40 "t8") = true ∧
    customer_send_payment stC8
      { user_type := "customer", customer_phone := some "+26778000008",
        wallet_id := some "pw_bw_2025_gg000008", amount := 1,
        channel := "ussd", recipient := "+26799000004" } "t8b" = .error .notFound := by
  refine ⟨?_, ?_, ?_⟩
  · simp +decide [stC8, wC8, findWalletById, List.find?]
  · exact (C8_amended_status_checks.2.1 stC8 "merchant_001" "pw_bw_2025_gg000008"
      40 "t8" wC8 (by norm_num)
      (by simp +decide [stC8, wC8, findWalletById, List.find?])
      (by simp [wC8])).1
  · exact C8_amended_status_checks.1
      stC8 _ "t8b" "+26778000008" "pw_bw_2025_gg000008"
      rfl rfl rfl
      (by simp +decide [stC8, wC8, findActiveWallet, List.find?])

/-- Witness for C9 (amended): the unconditional-credit equation applied at
the C9 fixture with the invalid amount −50 yields a reported new balance of
0, and the enterprise `process_payment` rejects 0.5 as below the minimum. -/
theorem C9_amended_witness :
    (customer_topup stC9 "customer" (some "+26779000009") (-50) "orange_money"
        "OM-REF-9b" "t9").toOption.map (fun p => p.2.new_balance) = some 0 ∧
    process_payment [cwW7] [] "cw7" 0.5 0 0 = .error "AMOUNT_TOO_LOW" := by
  constructor
  · have h := C9_amended_topup_no_validation.1 stC9 "+26779000009" (-50)
      "orange_money" "OM-REF-9b" "t9" wC9
      (by simp +decide [stC9, wC9, findWalletByPhone, List.find?])
    rw [h]
    simp +decide [wC9, Except.toOption] <;> norm_num
  · exact C9_amended_topup_no_validation.2 [cwW7] [] "cw7" 0.5 0 0 cwW7
      (by simp +decide [cwW7, List.find?])
      (by simp [cwW7])
      (by norm_num)

/-- Witness fixture for C10: an active wallet with balance 100. -/
def wW10 : Wallet :=
  { wallet_id := "pw_bw_2025_wa000010", business_id := "merchant_001",
    customer_phone := "+26786000016", balance := 100, daily_limit := 5000,
    status := "active" }

/-- Witness fixture for C10: the store holding that wallet. -/
def stW10 : DBState :=
  { wallets := [wW10], merchants := [], transactions := [] }

/-- Witness fixture for C10: a qr-code send of 10 naming the wallet by id,
authenticated with a phone that does not belong to the wallet's owner. -/
def reqW10 : SendRequest :=
  { user_type := "customer", customer_phone := some "+26700000099",
    wallet_id := some "pw_bw_2025_wa000010", amount := 10,
    channel := "qr_code", recipient := "+26799000005" }

/-- Witness for C10 at a concrete request: the outcome does not depend on
the caller's phone, is never the unauthorized error, and debits the named
wallet (100 − 10 − 0 = 90) even though the caller's phone differs from the
wallet owner's. -/
theorem C10_witness :
    (customer_send_payment stW10 { reqW10 with customer_phone := some "+26700000001" } "tA" =
     customer_send_payment stW10 { reqW10 with customer_phone := some "+26700000002" } "tA") ∧
    customer_send_payment stW10 reqW10 "tA" ≠ .error ApiError.unauthorized ∧
    (customer_send_payment stW10 reqW10 "tA").toOption.map
      (fun p => p.2.new_balance) = some 90 := by
  have h := C10_send_debits_named_wallet stW10 reqW10 "tA" "pw_bw_2025_wa000010" rfl rfl
  refine ⟨h.1 "+26700000001" "+26700000002", h.2.1, ?_⟩
  have h3 := h.2.2 wW10 "+26700000099" rfl
    (by simp +decide [findActiveWallet, stW10, wW10, List.find?])
    (by simp +decide [wW10, reqW10, feeFor, fee_structure, List.lookup] <;> norm_num)
  rw [h3]
  simp +decide [wW10, reqW10, feeFor, fee_structure, List.lookup] <;> norm_num
